import Mathlib

/-
Verification development for the QuikDel delivery-optimization repository.

The repository ships the pipeline driver `scripts/quick_start.py` (and `setup.py`).
The driver's collaborators — the hierarchical network builder, the delivery
simulator and the baseline runners — are imported by the driver but their
modules are not part of the source tree, so they are modelled here from the
specification; every such definition is marked `Modelled from the spec:`.
All definitions about `quick_start.py` itself are translated directly from
that file.
-/

namespace QuikDel

open List

/-- Role tag of a location, per the spec data model (producer, consumer, anchor). -/
inductive Role where
  | producer
  | consumer
  | anchor
deriving DecidableEq, Repr

/-- A geographic point: integer grid coordinates stand in for (latitude,
longitude), plus a stable identifier and a role tag, per the spec data model. -/
structure Loc where
  id : Nat
  x : Int
  y : Int
  role : Role
deriving DecidableEq, Repr

/-- Modelled from the spec: squared planar distance between two locations.  The
great-circle metric of the missing Geo Primitives module is represented by a
concrete symmetric nonnegative distance on the coordinates. -/
def locDist (a b : Loc) : ℚ := ((a.x - b.x : ℤ) : ℚ) ^ 2 + ((a.y - b.y : ℤ) : ℚ) ^ 2

/-- Local density of a candidate seed: the number of pending (unassigned)
elements within the spacing threshold, per spec section 4.1. -/
def density (d : α → α → ℚ) (dmin : ℚ) (pend : List α) (s : α) : Nat :=
  pend.countP (fun l => decide (d s l ≤ dmin))

/-- Modelled from the spec: the greedy seed/absorb clustering of the missing
network-construction module.  Repeatedly seed a cluster at the pending element
of highest local density (earliest maximal element as the canonical tie-break),
absorb every pending element within the threshold of the seed, and recurse on
the remainder.  Used for both clustering levels. -/
def cluster (d : α → α → ℚ) (dmin : ℚ) [DecidableEq α] (pend : List α) : List (List α) :=
  match h : pend.argmax (density d dmin pend) with
  | none => []
  | some s =>
    (s :: (pend.erase s).filter (fun l => decide (d s l ≤ dmin))) ::
      cluster d dmin ((pend.erase s).filter (fun l => !decide (d s l ≤ dmin)))
termination_by pend.length
decreasing_by
  have hs : s ∈ pend := List.argmax_mem (Option.mem_def.mpr h)
  have h1 : ((pend.erase s).filter (fun l => !decide (d s l ≤ dmin))).length
      ≤ (pend.erase s).length := List.length_filter_le _ _
  have h2 : (pend.erase s).length = pend.length - 1 := List.length_erase_of_mem hs
  have h3 : 0 < pend.length := List.length_pos.mpr (List.ne_nil_of_mem hs)
  omega

/-- A first-level hub owning a set of locations; the head of `members` is the
seed.  Identifier assigned at construction. -/
structure Hotspot where
  id : Nat
  members : List Loc
deriving DecidableEq, Repr

/-- A second-level hub owning a set of hotspots. -/
structure Superspot where
  id : Nat
  children : List Hotspot
deriving DecidableEq, Repr

/-- Assign consecutive identifiers to location clusters, turning them into hotspots. -/
def tagHotspots (n : Nat) : List (List Loc) → List Hotspot
  | [] => []
  | g :: gs => ⟨n, g⟩ :: tagHotspots (n + 1) gs

/-- Assign consecutive identifiers to hotspot groups, turning them into superspots. -/
def tagSuperspots (n : Nat) : List (List Hotspot) → List Superspot
  | [] => []
  | g :: gs => ⟨n, g⟩ :: tagSuperspots (n + 1) gs

/-- Centroid (coordinate mean) of a list of locations, computed, not stored. -/
def centroidOf (ls : List Loc) : ℚ × ℚ :=
  ((ls.map (fun l => (l.x : ℚ))).sum / ls.length,
   (ls.map (fun l => (l.y : ℚ))).sum / ls.length)

/-- Squared distance between two rational points. -/
def sqDist (p q : ℚ × ℚ) : ℚ := (p.1 - q.1) ^ 2 + (p.2 - q.2) ^ 2

/-- Centroid of a hotspot: mean of its member coordinates. -/
def hotspotCentroid (h : Hotspot) : ℚ × ℚ := centroidOf h.members

/-- Distance between hotspots, measured between their centroids. -/
def hotspotDist (a b : Hotspot) : ℚ := sqDist (hotspotCentroid a) (hotspotCentroid b)

/-- Centroid of a proto-superspot (a group of hotspots). -/
def groupCentroid (g : List Hotspot) : ℚ × ℚ :=
  (((g.map hotspotCentroid).map Prod.fst).sum / g.length,
   ((g.map hotspotCentroid).map Prod.snd).sum / g.length)

/-- Distance between two proto-superspots, measured between their centroids. -/
def groupDistH (g₁ g₂ : List Hotspot) : ℚ := sqDist (groupCentroid g₁) (groupCentroid g₂)

/-- Modelled from the spec: the merge pass of the missing network-construction
module.  While more than one superspot exists and some superspot owns fewer
than `m` hotspots, merge the first undersized superspot into its nearest
neighbouring superspot (by centroid distance), recursively. -/
def mergeLoop (m : Nat) (ss : List (List Hotspot)) : List (List Hotspot) :=
  if ss.length ≤ 1 then ss
  else
    match hu : ss.find? (fun g => decide (g.length < m)) with
    | none => ss
    | some u =>
      match ht : (ss.erase u).argmin (groupDistH u) with
      | none => ss
      | some tgt => mergeLoop m ((tgt ++ u) :: (ss.erase u).erase tgt)
termination_by ss.length
decreasing_by
  have hu' : u ∈ ss := List.mem_of_find?_eq_some hu
  have ht' : tgt ∈ ss.erase u := List.argmin_mem (Option.mem_def.mpr ht)
  have h2 : (ss.erase u).length = ss.length - 1 := List.length_erase_of_mem hu'
  have h3 : ((ss.erase u).erase tgt).length = (ss.erase u).length - 1 :=
    List.length_erase_of_mem ht'
  have h4 : 0 < (ss.erase u).length := List.length_pos.mpr (List.ne_nil_of_mem ht')
  simp only [List.length_cons]
  omega

/-- Parameters of the network builder, mirroring the constructor keywords
`ratio`, `min_children`, `spacing_threshold` passed in `quick_start.build_network`
(the target superspot-to-hotspot proportion is called `superspotTarget` here). -/
structure BuildParams where
  superspotTarget : ℚ
  min_children : Nat
  spacing_threshold : ℚ
deriving DecidableEq, Repr

/-- The two-level hierarchy returned by the network builder. -/
structure DeliveryNetwork where
  hotspots : List Hotspot
  superspots : List Superspot
deriving DecidableEq, Repr

/-- Modelled from the spec: first-level clustering of locations into hotspots. -/
def buildHotspots (p : BuildParams) (locs : List Loc) : List Hotspot :=
  tagHotspots 0 (cluster locDist p.spacing_threshold locs)

/-- Modelled from the spec: second-level clustering of hotspots into superspot
groups (threshold scaled by the target proportion — the exact scaling is an
open question in the spec), followed by the undersized-superspot merge pass. -/
def superspotGroups (p : BuildParams) (hs : List Hotspot) : List (List Hotspot) :=
  mergeLoop p.min_children (cluster hotspotDist (p.spacing_threshold * p.superspotTarget) hs)

/-- Modelled from the spec: the full network construction of the missing
`NetworkBuilder.build_from_data` — cluster locations into hotspots, then
hotspots into superspots, and return the hierarchy. -/
def buildNetwork (p : BuildParams) (locs : List Loc) : DeliveryNetwork :=
  ⟨buildHotspots p locs, tagSuperspots 0 (superspotGroups p (buildHotspots p locs))⟩

/-- Failure taxonomy entry (a) of the spec: an invalid parameter combination. -/
inductive BuildFailure where
  | configurationError (msg : String)
deriving DecidableEq, Repr

/-- Modelled from the spec: parameter validation — a negative target proportion
or a zero `min_children` is an invalid combination. -/
def validBuildParams (p : BuildParams) : Bool :=
  decide (0 ≤ p.superspotTarget) && decide (p.min_children ≠ 0)

/-- Modelled from the spec: the checked entry point of the missing
`NetworkBuilder` — invalid parameters are detected before construction begins
and surfaced as a fatal `ConfigurationError`. -/
def buildNetworkChecked (p : BuildParams) (locs : List Loc) :
    Except BuildFailure DeliveryNetwork :=
  if validBuildParams p then Except.ok (buildNetwork p locs)
  else Except.error (BuildFailure.configurationError "invalid network parameters")

/-- States of a delivery order, per the spec state machine
`pending → in-transit → {delivered | failed}`. -/
inductive OrderStatus where
  | pending
  | inTransit
  | delivered
  | failed
deriving DecidableEq, Repr

/-- A delivery order: identifier, producer location, consumer location and
creation timestamp, per the spec data model. -/
structure DeliveryOrder where
  oid : Nat
  producer : Loc
  consumer : Loc
  creation : ℚ
deriving DecidableEq, Repr

/-- One vehicle leg travelled by an order: source hub, destination hub and
departure time. -/
structure Leg where
  src : Loc
  dst : Loc
  depart : ℚ
deriving DecidableEq, Repr

/-- Terminal outcome of routing one order: final status, travelled legs and
finish time. -/
structure SimOutcome where
  status : OrderStatus
  legs : List Leg
  finish : ℚ
deriving Repr

namespace DeliverySimulator

/-- Modelled from the spec: hop-by-hop routing of one order by the missing
delivery engine.  At hub `c` at time `t`: past the horizon the order fails; at
the destination hub it is delivered; otherwise the hub's Q-Agent next-hop
choice (abstracted as `next`) gives the next hub, travel time elapses and
routing continues; an exhausted hop budget fails the order. -/
def routeGo (next : Loc → Loc → Loc) (dest : Loc) (horizon : ℚ) :
    Nat → Loc → ℚ → List Leg → SimOutcome
  | 0, _, t, legs => ⟨OrderStatus.failed, legs.reverse, t⟩
  | fuel + 1, c, t, legs =>
    if horizon < t then ⟨OrderStatus.failed, legs.reverse, t⟩
    else if c = dest then ⟨OrderStatus.delivered, legs.reverse, t⟩
    else
      routeGo next dest horizon fuel (next c dest)
        (t + locDist c (next c dest)) (⟨c, next c dest, t⟩ :: legs)

/-- Modelled from the spec: route one order from its producer's hub toward its
consumer's hub (`hub` maps a location to its owning hub; travel time is
distance at unit speed). -/
def routeOrder (hub : Loc → Loc) (next : Loc → Loc → Loc) (maxHops : Nat)
    (horizon : ℚ) (o : DeliveryOrder) : SimOutcome :=
  routeGo next (hub o.consumer) horizon maxHops (hub o.producer) o.creation []

/-- Configuration surface of the delivery simulator: the four constructor
keywords passed to `DeliverySimulator` in `quick_start.run_simulation`, plus
the maximum hop count of spec section 4.4 (a tunable). -/
structure SimConfig where
  total_deliveries : Nat
  simulation_time : ℚ
  enable_ride_sharing : Bool
  ride_share_threshold : ℚ
  max_hops : Nat
deriving Repr

/-- Modelled from the spec: order-arrival generation — `total_deliveries`
orders with arrival times spread across the horizon, endpoints drawn from the
seeded pseudo-random source abstracted as `pick`. -/
def mkOrders (cfg : SimConfig) (pick : Nat → Loc × Loc) : List DeliveryOrder :=
  (List.range cfg.total_deliveries).map fun i =>
    ⟨i, (pick i).1, (pick i).2, (i : ℚ) * cfg.simulation_time / (cfg.total_deliveries : ℚ)⟩

/-- Modelled from the spec: the terminal outcomes of all orders of one run.
The routes do not depend on the ride-share flag — ride-sharing only
consolidates legs into shared vehicle trips. -/
def simOutcomes (cfg : SimConfig) (hub : Loc → Loc) (next : Loc → Loc → Loc)
    (pick : Nat → Loc × Loc) : List SimOutcome :=
  (mkOrders cfg pick).map (routeOrder hub next cfg.max_hops cfg.simulation_time)

/-- Count of orders of one run whose terminal state is `delivered`. -/
def deliveredCount (cfg : SimConfig) (hub : Loc → Loc) (next : Loc → Loc → Loc)
    (pick : Nat → Loc × Loc) : Nat :=
  (simOutcomes cfg hub next pick).countP (fun r => decide (r.status = OrderStatus.delivered))

/-- Count of orders of one run whose terminal state is `failed`. -/
def failedCount (cfg : SimConfig) (hub : Loc → Loc) (next : Loc → Loc → Loc)
    (pick : Nat → Loc × Loc) : Nat :=
  (simOutcomes cfg hub next pick).countP (fun r => decide (r.status = OrderStatus.failed))

/-- All vehicle legs travelled during one run. -/
def allLegs (cfg : SimConfig) (hub : Loc → Loc) (next : Loc → Loc → Loc)
    (pick : Nat → Loc × Loc) : List Leg :=
  ((simOutcomes cfg hub next pick).map SimOutcome.legs).flatten

/-- Distance of one leg. -/
def legDist (l : Leg) : ℚ := locDist l.src l.dst

/-- Total distance without ride-sharing: every leg is charged independently. -/
def plainDistance (legs : List Leg) : ℚ := (legs.map legDist).sum

/-- Modelled from the spec: ride-share compatibility — same current hub,
destinations within the distance threshold, departures within the wait
window. -/
def compatLeg (thr win : ℚ) (a b : Leg) : Bool :=
  decide (a.src = b.src) && decide (locDist a.dst b.dst ≤ thr) &&
    decide (|a.depart - b.depart| ≤ win)

/-- Insert a leg into the first ride-share group whose representative is
compatible with it, or open a new group. -/
def insertLeg (compat : Leg → Leg → Bool) (l : Leg) :
    List (Leg × List Leg) → List (Leg × List Leg)
  | [] => [(l, [])]
  | (r, ms) :: gs =>
    if compat r l then (r, l :: ms) :: gs else (r, ms) :: insertLeg compat l gs

/-- Group the legs of a run into ride-share groups (representative, members). -/
def groupLegs (compat : Leg → Leg → Bool) (legs : List Leg) : List (Leg × List Leg) :=
  legs.foldl (fun gs l => insertLeg compat l gs) []

/-- Distance charged for one ride-share group: one shared vehicle trip serves
the whole group, so the longest member leg is charged instead of the sum. -/
def groupCharge (g : Leg × List Leg) : ℚ :=
  ((g.1 :: g.2).map legDist).foldr max 0

/-- Modelled from the spec: total distance after ride-share consolidation. -/
def sharedDistance (thr win : ℚ) (legs : List Leg) : ℚ :=
  ((groupLegs (compatLeg thr win) legs).map groupCharge).sum

/-- Total distance of a run: consolidated when ride-sharing is enabled, the
plain per-leg sum otherwise.  The wait window is a tunable the spec leaves
open; the model ties it to the distance threshold. -/
def totalDistanceOut (cfg : SimConfig) (hub : Loc → Loc) (next : Loc → Loc → Loc)
    (pick : Nat → Loc × Loc) : ℚ :=
  if cfg.enable_ride_sharing then
    sharedDistance cfg.ride_share_threshold cfg.ride_share_threshold
      (allLegs cfg hub next pick)
  else plainDistance (allLegs cfg hub next pick)

/-- Modelled from the spec: the result record of `DeliverySimulator.run_simulation`
as read by `quick_start.run_simulation` — a flat key-value structure carrying
the four aggregate metrics. -/
def run_simulation (cfg : SimConfig) (hub : Loc → Loc) (next : Loc → Loc → Loc)
    (pick : Nat → Loc × Loc) : List (String × ℚ) :=
  [("total_deliveries", ((simOutcomes cfg hub next pick).length : ℚ)),
   ("success_rate",
     (deliveredCount cfg hub next pick : ℚ) / ((simOutcomes cfg hub next pick).length : ℚ)),
   ("total_distance", totalDistanceOut cfg hub next pick),
   ("avg_delivery_time",
     ((simOutcomes cfg hub next pick).map SimOutcome.finish).sum /
       ((simOutcomes cfg hub next pick).length : ℚ))]

end DeliverySimulator

/-- Value stored under a key of a flat result record (0 for a missing key). -/
def resultVal (res : List (String × ℚ)) (k : String) : ℚ := (res.lookup k).getD 0

/-- A Python scalar value appearing in configurations and keyword arguments. -/
inductive PyVal where
  | int (n : Int)
  | rat (q : ℚ)
  | bool (b : Bool)
  | str (s : String)
deriving DecidableEq, Repr

namespace QuickStart

/-- An exception of class `Exception` raised inside a pipeline step body:
either an `ImportError` (a missing core module) or any other subclass. -/
inductive PyExc where
  | importError
  | otherExc
deriving DecidableEq, Repr

/-- The city data returned by the extraction step, as read back by
`quick_start.extract_city_data` (census tract, producer and consumer counts). -/
structure CityData where
  census_tracts : Nat
  producers : Nat
  consumers : Nat
deriving DecidableEq, Repr

/-- The trained-agents artifact, as read back by `quick_start.train_agents`. -/
structure AgentsArtifact where
  agents : Nat
deriving DecidableEq, Repr

/-- The aggregate-metrics record of one simulator or baseline run, with the
fields `quick_start.generate_summary` reads. -/
structure Metrics where
  total_deliveries : ℚ
  success_rate : ℚ
  total_distance : ℚ
  avg_delivery_time : ℚ
deriving DecidableEq, Repr

/-- Translated from `quick_start.extract_city_data`: the body (the import of
the missing QCense module and the extraction call) is abstracted as its
outcome; both the `except ImportError` arm and the `except Exception` arm
return `None`. -/
def extract_city_data (body : Except PyExc CityData) : Option CityData :=
  match body with
  | Except.ok v => some v
  | Except.error PyExc.importError => none
  | Except.error PyExc.otherExc => none

/-- Translated from `quick_start.build_network`: the body (the import of the
missing network-construction module and `builder.build_from_data`) is
abstracted as its outcome; both except arms return `None`. -/
def build_network (body : Except PyExc DeliveryNetwork) : Option DeliveryNetwork :=
  match body with
  | Except.ok v => some v
  | Except.error PyExc.importError => none
  | Except.error PyExc.otherExc => none

/-- Translated from `quick_start.train_agents`: the body is abstracted as its
outcome; both except arms return `None`. -/
def train_agents (body : Except PyExc AgentsArtifact) : Option AgentsArtifact :=
  match body with
  | Except.ok v => some v
  | Except.error PyExc.importError => none
  | Except.error PyExc.otherExc => none

/-- Translated from `quick_start.run_simulation`: the body (the import of the
missing delivery engine and `simulator.run_simulation`) is abstracted as its
outcome; both except arms return `None`. -/
def run_simulation (body : Except PyExc (List (String × ℚ))) :
    Option (List (String × ℚ)) :=
  match body with
  | Except.ok v => some v
  | Except.error PyExc.importError => none
  | Except.error PyExc.otherExc => none

/-- Translated from `quick_start.run_baselines`: each baseline attempt is
guarded by its own try/except that records nothing on failure; the result dict
gains a `p2p` entry and then an `ablation` entry for the attempts that
succeed. -/
def run_baselines (p2pBody ablationBody : Except PyExc Metrics) :
    List (String × Metrics) :=
  (match p2pBody with
   | Except.ok m => [("p2p", m)]
   | Except.error _ => []) ++
  (match ablationBody with
   | Except.ok m => [("ablation", m)]
   | Except.error _ => [])

/-- The uncaught arithmetic exception of `quick_start.generate_summary`. -/
inductive ZeroDiv where
  | zeroDivisionError
deriving DecidableEq, Repr

/-- One entry of the `comparisons` dict written by
`quick_start.generate_summary`. -/
structure VsComparison where
  distance_improvement_percent : ℚ
  success_rate_diff : ℚ
  time_increase : ℚ
deriving DecidableEq, Repr

/-- The summary record written to `experiment_summary.json`. -/
structure Summary where
  quikdel : Metrics
  baselines : List (String × Metrics)
  comparisons : List (String × VsComparison)
deriving DecidableEq, Repr

/-- Translated from `quick_start.generate_summary`: when the baselines dict has
a `p2p` entry, the distance improvement divides by the p2p total distance with
no zero guard — a zero value raises `ZeroDivisionError` before the summary file
write, modelled as `Except.error`; without a `p2p` entry the summary is written
with an empty comparisons dict. -/
def generate_summary (q : Metrics) (bs : List (String × Metrics)) :
    Except ZeroDiv Summary :=
  match bs.lookup "p2p" with
  | none => Except.ok ⟨q, bs, []⟩
  | some m =>
    if m.total_distance = 0 then Except.error ZeroDiv.zeroDivisionError
    else
      Except.ok ⟨q, bs,
        [("vs_p2p",
          ⟨(m.total_distance - q.total_distance) / m.total_distance * 100,
           q.success_rate - m.success_rate,
           q.avg_delivery_time - m.avg_delivery_time⟩)]⟩

/-- The pipeline steps of `quick_start.main`, in source order. -/
inductive StepTag where
  | extractStep
  | buildStep
  | trainStep
  | simStep
  | baselinesStep
  | summaryStep
deriving DecidableEq, Repr

/-- Inputs determining the control flow of `quick_start.main`: the two skip
flags and the outcome of each guarded step body. -/
structure MainInputs where
  skip_data : Bool
  skip_training : Bool
  extractBody : Except PyExc CityData
  buildBody : Except PyExc DeliveryNetwork
  trainBody : Except PyExc AgentsArtifact
  simBody : Except PyExc (List (String × ℚ))

/-- Steps of `main` from the simulation step on: baselines and the summary
always follow a successful simulation, and a failed simulation returns. -/
def mainFromSim (inp : MainInputs) : List StepTag :=
  match run_simulation inp.simBody with
  | none => [StepTag.simStep]
  | some _ => [StepTag.simStep, StepTag.baselinesStep, StepTag.summaryStep]

/-- Steps of `main` from the training step on. -/
def mainFromTrain (inp : MainInputs) : List StepTag :=
  if inp.skip_training then mainFromSim inp
  else
    match train_agents inp.trainBody with
    | none => [StepTag.trainStep]
    | some _ => StepTag.trainStep :: mainFromSim inp

/-- Steps of `main` from the network-construction step on. -/
def mainFromBuild (inp : MainInputs) : List StepTag :=
  match build_network inp.buildBody with
  | none => [StepTag.buildStep]
  | some _ => StepTag.buildStep :: mainFromTrain inp

/-- Translated from `quick_start.main`: the sequence of pipeline steps that
actually execute.  A step function returning `None` makes `main` return
before any later step runs. -/
def mainSteps (inp : MainInputs) : List StepTag :=
  if inp.skip_data then mainFromBuild inp
  else
    match extract_city_data inp.extractBody with
    | none => [StepTag.extractStep]
    | some _ => StepTag.extractStep :: mainFromBuild inp

/-- The simulator classes `quick_start.py` instantiates. -/
inductive SimClass where
  | deliverySimulator
  | p2pBaseline
  | ablationStudy
deriving DecidableEq, Repr

/-- One constructor call as it appears in the source: the class and the keyword
arguments passed. -/
structure CtorCall where
  cls : SimClass
  kwargs : List (String × PyVal)
deriving DecidableEq, Repr

/-- The `simulation` section values used by the constructor calls. -/
structure SimSection where
  total_deliveries : Int
  simulation_time : Int
  enable_ride_sharing : Bool
  ride_share_threshold : Int
deriving DecidableEq, Repr

/-- Translated from `quick_start.run_simulation`: the constructor call for the
learned (Q-Agent-driven) run. -/
def quikdelCtor (c : SimSection) : CtorCall :=
  ⟨SimClass.deliverySimulator,
   [("total_deliveries", PyVal.int c.total_deliveries),
    ("simulation_time", PyVal.int c.simulation_time),
    ("enable_ride_sharing", PyVal.bool c.enable_ride_sharing),
    ("ride_share_threshold", PyVal.int c.ride_share_threshold)]⟩

/-- Translated from `quick_start.run_baselines`: the constructor call for the
direct point-to-point baseline. -/
def p2pCtor (c : SimSection) : CtorCall :=
  ⟨SimClass.p2pBaseline, [("total_deliveries", PyVal.int c.total_deliveries)]⟩

/-- Translated from `quick_start.run_baselines`: the constructor call for the
no-ride-share ablation baseline. -/
def ablationCtor (c : SimSection) : CtorCall :=
  ⟨SimClass.ablationStudy,
   [("total_deliveries", PyVal.int c.total_deliveries),
    ("enable_ride_sharing", PyVal.bool false)]⟩

/-- Translated from `quick_start.run_baselines`: the baseline variants run, in
source order, with the constructor call each one issues. -/
def run_baselines_calls (c : SimSection) : List (String × CtorCall) :=
  [("p2p", p2pCtor c), ("ablation", ablationCtor c)]

/-- A loaded YAML configuration: sections of key-value entries. -/
abbrev ConfigDict := List (String × List (String × PyVal))

/-- Translated from the Python dict assignment `d[k] = v`: replace the first
binding of `k`, or append a new binding. -/
def setKey (k : String) (v : PyVal) (d : List (String × PyVal)) :
    List (String × PyVal) :=
  match d with
  | [] => [(k, v)]
  | (k', v') :: rest => if k' = k then (k, v) :: rest else (k', v') :: setKey k v rest

/-- Translated from `config['network']['superspot_ratio'] = args.ratio` in
`quick_start.main`: update one key inside one section, leaving every other
section untouched. -/
def setSectionKey (sec key : String) (v : PyVal) (cfg : ConfigDict) : ConfigDict :=
  cfg.map fun p => if p.1 = sec then (p.1, setKey key v p.2) else p

/-- Translated from the argparse declaration in `quick_start.main`: the value
of the `--ratio` argument, defaulting to 10 when not supplied. -/
def parsedRArg (cli : Option Int) : Int := cli.getD 10

/-- Translated from `quick_start.main`: the configuration actually used by the
pipeline — the loaded config with the network superspot key overwritten by the
CLI value, after the config file is read. -/
def mainConfig (cfg : ConfigDict) (cli : Option Int) : ConfigDict :=
  setSectionKey "network" "superspot_ratio" (PyVal.int (parsedRArg cli)) cfg

/-- Read one nested configuration entry. -/
def getCfg (cfg : ConfigDict) (sec key : String) : Option PyVal :=
  match cfg.lookup sec with
  | none => none
  | some d => d.lookup key

end QuickStart

/-- Every run of the routing loop ends in a terminal state: delivered or failed. -/
theorem routeGo_terminal (next : Loc → Loc → Loc) (dest : Loc) (horizon : ℚ) :
    ∀ (fuel : Nat) (c : Loc) (t : ℚ) (legs : List Leg),
      (DeliverySimulator.routeGo next dest horizon fuel c t legs).status =
          OrderStatus.delivered ∨
        (DeliverySimulator.routeGo next dest horizon fuel c t legs).status =
          OrderStatus.failed := by
  intro fuel
  induction fuel with
  | zero => intro c t legs; right; rfl
  | succ n ih =>
    intro c t legs
    simp only [DeliverySimulator.routeGo]
    split
    · right; rfl
    · split
      · left; rfl
      · exact ih _ _ _

/-- A list of terminal outcomes splits into delivered ones and failed ones. -/
theorem countP_terminal (outs : List SimOutcome)
    (h : ∀ r ∈ outs,
      r.status = OrderStatus.delivered ∨ r.status = OrderStatus.failed) :
    outs.countP (fun r => decide (r.status = OrderStatus.delivered)) +
      outs.countP (fun r => decide (r.status = OrderStatus.failed)) = outs.length := by
  induction outs with
  | nil => simp
  | cons a l ih =>
    have ih' := ih fun r hr => h r (List.mem_cons_of_mem a hr)
    rcases h a (List.mem_cons_self a l) with ha | ha <;>
      simp [List.countP_cons, ha] <;> omega

/-- Claim C1: the simulation result of every completed run is a flat key-value
record whose keys are exactly total_deliveries, success_rate, total_distance
and avg_delivery_time, and each of the four keys is readable from the record
returned by the simulator's run_simulation entry point. -/
theorem sim_result_record (cfg : DeliverySimulator.SimConfig) (hub : Loc → Loc)
    (next : Loc → Loc → Loc) (pick : Nat → Loc × Loc) :
    ((DeliverySimulator.run_simulation cfg hub next pick).map Prod.fst =
      ["total_deliveries", "success_rate", "total_distance", "avg_delivery_time"]) ∧
    ((DeliverySimulator.run_simulation cfg hub next pick).lookup
        "total_deliveries").isSome = true ∧
    ((DeliverySimulator.run_simulation cfg hub next pick).lookup
        "success_rate").isSome = true ∧
    ((DeliverySimulator.run_simulation cfg hub next pick).lookup
        "total_distance").isSome = true ∧
    ((DeliverySimulator.run_simulation cfg hub next pick).lookup
        "avg_delivery_time").isSome = true :=
  ⟨rfl, rfl, rfl, rfl, rfl⟩

/-- Claim C2: for every completed run of the delivery simulator, the reported
total_deliveries equals the count of orders that reached the delivered terminal
state plus the count of orders that reached the failed terminal state. -/
theorem sim_conservation (cfg : DeliverySimulator.SimConfig) (hub : Loc → Loc)
    (next : Loc → Loc → Loc) (pick : Nat → Loc × Loc) :
    resultVal (DeliverySimulator.run_simulation cfg hub next pick) "total_deliveries" =
      ((DeliverySimulator.deliveredCount cfg hub next pick +
        DeliverySimulator.failedCount cfg hub next pick : ℕ) : ℚ) := by
  have hterm : ∀ r ∈ DeliverySimulator.simOutcomes cfg hub next pick,
      r.status = OrderStatus.delivered ∨ r.status = OrderStatus.failed := by
    intro r hr
    simp only [DeliverySimulator.simOutcomes, List.mem_map] at hr
    obtain ⟨o, _, rfl⟩ := hr
    exact routeGo_terminal next _ _ _ _ _ _
  have hcount := countP_terminal _ hterm
  have hval : resultVal (DeliverySimulator.run_simulation cfg hub next pick)
      "total_deliveries" =
      ((DeliverySimulator.simOutcomes cfg hub next pick).length : ℚ) := rfl
  rw [hval, DeliverySimulator.deliveredCount, DeliverySimulator.failedCount, ← hcount]

/-- Leg distances are nonnegative. -/
theorem legDist_nonneg (l : Leg) : 0 ≤ DeliverySimulator.legDist l := by
  unfold DeliverySimulator.legDist locDist
  positivity

/-- The maximum of a list of nonnegative rationals is at most its sum. -/
theorem foldr_max_le_sum (xs : List ℚ) (h : ∀ x ∈ xs, 0 ≤ x) :
    xs.foldr max 0 ≤ xs.sum := by
  induction xs with
  | nil => simp
  | cons a l ih =>
    simp only [List.foldr_cons, List.sum_cons]
    have ha : 0 ≤ a := h a (List.mem_cons_self a l)
    have hl : ∀ x ∈ l, 0 ≤ x := fun x hx => h x (List.mem_cons_of_mem a hx)
    exact max_le (le_add_of_nonneg_right (List.sum_nonneg hl))
      ((ih hl).trans (le_add_of_nonneg_left ha))

/-- Inserting a leg into the ride-share groups adds exactly that leg to the
multiset of grouped legs. -/
theorem insertLeg_flatten_perm (compat : Leg → Leg → Bool) (l : Leg)
    (gs : List (Leg × List Leg)) :
    ((DeliverySimulator.insertLeg compat l gs).map (fun g => g.1 :: g.2)).flatten ~
      l :: (gs.map (fun g => g.1 :: g.2)).flatten := by
  induction gs with
  | nil => simp [DeliverySimulator.insertLeg]
  | cons g gs ih =>
    obtain ⟨r, ms⟩ := g
    by_cases h : compat r l
    · simp only [DeliverySimulator.insertLeg, if_pos h, List.map_cons, List.flatten_cons]
      exact List.Perm.swap l r _
    · simp only [DeliverySimulator.insertLeg, if_neg h, List.map_cons, List.flatten_cons]
      calc (r :: ms) ++
            ((DeliverySimulator.insertLeg compat l gs).map (fun g => g.1 :: g.2)).flatten
          ~ (r :: ms) ++ (l :: (gs.map (fun g => g.1 :: g.2)).flatten) :=
            List.Perm.append_left _ ih
        _ ~ l :: ((r :: ms) ++ (gs.map (fun g => g.1 :: g.2)).flatten) :=
            List.perm_middle

/-- Grouping the legs of a run into ride-share groups preserves the multiset
of legs (auxiliary form with an accumulator). -/
theorem groupLegs_flatten_perm_aux (compat : Leg → Leg → Bool) (legs : List Leg) :
    ∀ gs : List (Leg × List Leg),
      ((legs.foldl (fun gs l => DeliverySimulator.insertLeg compat l gs) gs).map
          (fun g => g.1 :: g.2)).flatten ~
        (gs.map (fun g => g.1 :: g.2)).flatten ++ legs := by
  induction legs with
  | nil => intro gs; simp
  | cons a legs ih =>
    intro gs
    simp only [List.foldl_cons]
    calc ((legs.foldl (fun gs l => DeliverySimulator.insertLeg compat l gs)
            (DeliverySimulator.insertLeg compat a gs)).map (fun g => g.1 :: g.2)).flatten
        ~ ((DeliverySimulator.insertLeg compat a gs).map (fun g => g.1 :: g.2)).flatten
            ++ legs := ih _
      _ ~ (a :: (gs.map (fun g => g.1 :: g.2)).flatten) ++ legs :=
          List.Perm.append_right _ (insertLeg_flatten_perm compat a gs)
      _ ~ (gs.map (fun g => g.1 :: g.2)).flatten ++ (a :: legs) :=
          List.perm_middle.symm

/-- Grouping the legs of a run into ride-share groups preserves the multiset
of legs. -/
theorem groupLegs_flatten_perm (compat : Leg → Leg → Bool) (legs : List Leg) :
    ((DeliverySimulator.groupLegs compat legs).map (fun g => g.1 :: g.2)).flatten ~
      legs := by
  simpa [DeliverySimulator.groupLegs] using groupLegs_flatten_perm_aux compat legs []

/-- Summing leg distances group by group recovers the flattened sum. -/
theorem sum_over_groups (gs : List (Leg × List Leg)) :
    (gs.map (fun g => ((g.1 :: g.2).map DeliverySimulator.legDist).sum)).sum =
      (((gs.map (fun g => g.1 :: g.2)).flatten).map DeliverySimulator.legDist).sum := by
  induction gs with
  | nil => simp
  | cons g gs ih =>
    simp only [List.map_cons, List.flatten_cons, List.map_append, List.sum_append,
      List.sum_cons] at ih ⊢
    rw [ih]

/-- Ride-share consolidation never increases the total distance. -/
theorem sharedDistance_le_plain (thr win : ℚ) (legs : List Leg) :
    DeliverySimulator.sharedDistance thr win legs ≤
      DeliverySimulator.plainDistance legs := by
  have step1 : ∀ g ∈ DeliverySimulator.groupLegs (DeliverySimulator.compatLeg thr win) legs,
      DeliverySimulator.groupCharge g ≤
        ((g.1 :: g.2).map DeliverySimulator.legDist).sum := by
    intro g _
    refine foldr_max_le_sum _ ?_
    intro x hx
    simp only [List.mem_map] at hx
    obtain ⟨l, _, rfl⟩ := hx
    exact legDist_nonneg l
  have step2 := List.sum_le_sum step1
  have step3 := sum_over_groups
    (DeliverySimulator.groupLegs (DeliverySimulator.compatLeg thr win) legs)
  have step4 : ((((DeliverySimulator.groupLegs (DeliverySimulator.compatLeg thr win)
        legs).map (fun g => g.1 :: g.2)).flatten).map DeliverySimulator.legDist).sum =
      (legs.map DeliverySimulator.legDist).sum :=
    ((groupLegs_flatten_perm (DeliverySimulator.compatLeg thr win) legs).map
      DeliverySimulator.legDist).sum_eq
  calc DeliverySimulator.sharedDistance thr win legs
      ≤ ((DeliverySimulator.groupLegs (DeliverySimulator.compatLeg thr win) legs).map
          (fun g => ((g.1 :: g.2).map DeliverySimulator.legDist).sum)).sum := step2
    _ = (legs.map DeliverySimulator.legDist).sum := by rw [step3, step4]

/-- Claim C3: for every order set and pseudo-random seed, the run with
ride-sharing enabled yields a total_distance at most that of the run with
ride-sharing disabled, all other inputs and parameters equal. -/
theorem ride_share_distance_le (n mh : Nat) (st thr : ℚ) (hub : Loc → Loc)
    (next : Loc → Loc → Loc) (pick : Nat → Loc × Loc) :
    resultVal (DeliverySimulator.run_simulation ⟨n, st, true, thr, mh⟩ hub next pick)
        "total_distance" ≤
      resultVal (DeliverySimulator.run_simulation ⟨n, st, false, thr, mh⟩ hub next pick)
        "total_distance" := by
  have h1 : resultVal
      (DeliverySimulator.run_simulation ⟨n, st, true, thr, mh⟩ hub next pick)
      "total_distance" =
      DeliverySimulator.sharedDistance thr thr
        (DeliverySimulator.allLegs ⟨n, st, true, thr, mh⟩ hub next pick) := rfl
  have h2 : resultVal
      (DeliverySimulator.run_simulation ⟨n, st, false, thr, mh⟩ hub next pick)
      "total_distance" =
      DeliverySimulator.plainDistance
        (DeliverySimulator.allLegs ⟨n, st, true, thr, mh⟩ hub next pick) := rfl
  rw [h1, h2]
  exact sharedDistance_le_plain thr thr _

/-- Claim C4: two network-builder runs with identical input ordering and
identical parameters produce identical hierarchies — the same hotspot
memberships and the same superspot memberships. -/
theorem build_deterministic (p₁ p₂ : BuildParams) (locs₁ locs₂ : List Loc)
    (hp : p₁ = p₂) (hl : locs₁ = locs₂) :
    (buildNetwork p₁ locs₁).hotspots.map Hotspot.members =
      (buildNetwork p₂ locs₂).hotspots.map Hotspot.members ∧
    (buildNetwork p₁ locs₁).superspots.map Superspot.children =
      (buildNetwork p₂ locs₂).superspots.map Superspot.children := by
  subst hp; subst hl; exact ⟨rfl, rfl⟩

/-- Witness for claim C4 at a concrete two-location input. -/
theorem build_deterministic_witness :
    (buildNetwork ⟨2, 1, 4⟩ [⟨0, 0, 0, Role.producer⟩, ⟨1, 3, 0, Role.consumer⟩]).hotspots.map
        Hotspot.members =
      (buildNetwork ⟨2, 1, 4⟩ [⟨0, 0, 0, Role.producer⟩, ⟨1, 3, 0, Role.consumer⟩]).hotspots.map
        Hotspot.members ∧
    (buildNetwork ⟨2, 1, 4⟩ [⟨0, 0, 0, Role.producer⟩, ⟨1, 3, 0, Role.consumer⟩]).superspots.map
        Superspot.children =
      (buildNetwork ⟨2, 1, 4⟩ [⟨0, 0, 0, Role.producer⟩, ⟨1, 3, 0, Role.consumer⟩]).superspots.map
        Superspot.children :=
  build_deterministic ⟨2, 1, 4⟩ ⟨2, 1, 4⟩
    [⟨0, 0, 0, Role.producer⟩, ⟨1, 3, 0, Role.consumer⟩]
    [⟨0, 0, 0, Role.producer⟩, ⟨1, 3, 0, Role.consumer⟩] rfl rfl

/-- The clusters produced by the greedy seed/absorb loop partition the input
as a multiset (auxiliary form bounded by a length fuel). -/
theorem cluster_flatten_perm_aux (d : α → α → ℚ) (dmin : ℚ) [DecidableEq α] :
    ∀ (n : Nat) (pend : List α), pend.length ≤ n →
      List.Perm (cluster d dmin pend).flatten pend := by
  intro n
  induction n with
  | zero =>
    intro pend hlen
    have h0 : pend = [] := List.length_eq_zero.mp (Nat.le_zero.mp hlen)
    subst h0
    rw [cluster.eq_def]
    simp
  | succ n ih =>
    intro pend hlen
    rw [cluster.eq_def]
    split
    · rename_i heq
      have h0 : pend = [] := List.argmax_eq_none.mp heq
      subst h0
      simp
    · rename_i s heq
      have hs : s ∈ pend := List.argmax_mem (Option.mem_def.mpr heq)
      have hrest : (pend.erase s).length = pend.length - 1 := List.length_erase_of_mem hs
      have hpos : 0 < pend.length := List.length_pos.mpr (List.ne_nil_of_mem hs)
      have hlen2 :
          ((pend.erase s).filter (fun l => !decide (d s l ≤ dmin))).length ≤ n := by
        have := List.length_filter_le (fun l => !decide (d s l ≤ dmin)) (pend.erase s)
        omega
      have ihr := ih _ hlen2
      simp only [List.flatten_cons]
      refine (List.Perm.append_left _ ihr).trans ?_
      refine (List.Perm.cons s (List.filter_append_perm _ (pend.erase s))).trans ?_
      exact (List.perm_cons_erase hs).symm

/-- The greedy clustering of a nonempty list is nonempty. -/
theorem cluster_ne_nil (d : α → α → ℚ) (dmin : ℚ) [DecidableEq α] (pend : List α)
    (h : pend ≠ []) : cluster d dmin pend ≠ [] := by
  rw [cluster.eq_def]
  split
  · rename_i heq
    exact absurd (List.argmax_eq_none.mp heq) h
  · simp

/-- A list is a permutation of any member consed onto the list with that
member erased (stated over any lawful boolean equality). -/
theorem perm_cons_erase_beq {β : Type} [BEq β] [LawfulBEq β] {a : β} {l : List β}
    (h : a ∈ l) : List.Perm l (a :: l.erase a) := by
  induction l with
  | nil => simp at h
  | cons x xs ih =>
    by_cases hx : x = a
    · subst hx
      rw [List.erase_cons_head]
    · have hmem : a ∈ xs := by
        rcases List.mem_cons.mp h with h1 | h1
        · exact absurd h1.symm hx
        · exact h1
      have hbx : ¬(x == a) := by simpa using hx
      rw [List.erase_cons_tail (by simpa using hbx)]
      exact (List.Perm.cons x (ih hmem)).trans (List.Perm.swap a x _)

/-- The merge pass preserves the multiset of hotspots distributed over the
superspot groups (auxiliary form bounded by a length fuel). -/
theorem mergeLoop_flatten_perm_aux (m : Nat) :
    ∀ (n : Nat) (ss : List (List Hotspot)), ss.length ≤ n →
      List.Perm (mergeLoop m ss).flatten ss.flatten := by
  intro n
  induction n with
  | zero =>
    intro ss hlen
    have h0 : ss = [] := List.length_eq_zero.mp (Nat.le_zero.mp hlen)
    subst h0
    rw [mergeLoop.eq_def]
    simp
  | succ n ih =>
    intro ss hlen
    rw [mergeLoop.eq_def]
    split
    · exact List.Perm.refl _
    · rename_i hgt
      split
      · exact List.Perm.refl _
      · rename_i u hfind
        split
        · exact List.Perm.refl _
        · rename_i tgt hmin
          have hu : u ∈ ss := List.mem_of_find?_eq_some hfind
          have ht : tgt ∈ ss.erase u := List.argmin_mem (Option.mem_def.mpr hmin)
          have h1 : (ss.erase u).length = ss.length - 1 := List.length_erase_of_mem hu
          have h2 : ((ss.erase u).erase tgt).length = (ss.erase u).length - 1 :=
            List.length_erase_of_mem ht
          have hnew : ((tgt ++ u) :: (ss.erase u).erase tgt).length ≤ n := by
            simp only [List.length_cons]
            omega
          have e1 : List.Perm ss.flatten (u ++ (ss.erase u).flatten) := by
            simpa using (perm_cons_erase_beq hu).flatten
          have e2 : List.Perm (ss.erase u).flatten
              (tgt ++ ((ss.erase u).erase tgt).flatten) := by
            simpa using (perm_cons_erase_beq ht).flatten
          refine (ih _ hnew).trans ?_
          simp only [List.flatten_cons]
          calc (tgt ++ u) ++ ((ss.erase u).erase tgt).flatten
              ~ (u ++ tgt) ++ ((ss.erase u).erase tgt).flatten :=
                List.Perm.append_right _ List.perm_append_comm
            _ = u ++ (tgt ++ ((ss.erase u).erase tgt).flatten) :=
                List.append_assoc u tgt _
            _ ~ u ++ (ss.erase u).flatten := List.Perm.append_left u e2.symm
            _ ~ ss.flatten := e1.symm

/-- After the merge pass, either exactly one superspot group remains or every
group owns at least `m` hotspots (auxiliary form bounded by a length fuel). -/
theorem mergeLoop_sized (m : Nat) :
    ∀ (n : Nat) (ss : List (List Hotspot)), ss.length ≤ n → ss ≠ [] →
      (mergeLoop m ss).length = 1 ∨ ∀ g ∈ mergeLoop m ss, m ≤ g.length := by
  intro n
  induction n with
  | zero =>
    intro ss hlen hne
    exact absurd (List.length_eq_zero.mp (Nat.le_zero.mp hlen)) hne
  | succ n ih =>
    intro ss hlen hne
    rw [mergeLoop.eq_def]
    split
    · rename_i hle
      left
      have := List.length_pos.mpr hne
      omega
    · rename_i hgt
      split
      · rename_i hfind
        right
        intro g hg
        have := List.find?_eq_none.mp hfind g hg
        simp at this
        omega
      · rename_i u hfind
        split
        · rename_i hmin
          exfalso
          have hu : u ∈ ss := List.mem_of_find?_eq_some hfind
          have h1 : (ss.erase u).length = ss.length - 1 := List.length_erase_of_mem hu
          have h0 : ss.erase u = [] := List.argmin_eq_none.mp hmin
          rw [h0] at h1
          simp at h1
          omega
        · rename_i tgt hmin
          have hu : u ∈ ss := List.mem_of_find?_eq_some hfind
          have ht : tgt ∈ ss.erase u := List.argmin_mem (Option.mem_def.mpr hmin)
          have h1 : (ss.erase u).length = ss.length - 1 := List.length_erase_of_mem hu
          have h2 : ((ss.erase u).erase tgt).length = (ss.erase u).length - 1 :=
            List.length_erase_of_mem ht
          exact ih _ (by simp only [List.length_cons]; omega) (by simp)

/-- Counting hotspots that contain a given location is invariant under
identifier tagging. -/
theorem tagHotspots_countP_mem (l : Loc) (n : Nat) (gs : List (List Loc)) :
    (tagHotspots n gs).countP (fun h => decide (l ∈ h.members)) =
      gs.countP (fun g => decide (l ∈ g)) := by
  induction gs generalizing n with
  | nil => rfl
  | cons g gs ih => simp [tagHotspots, List.countP_cons, ih]

/-- Counting superspots that contain a given hotspot is invariant under
identifier tagging. -/
theorem tagSuperspots_countP_mem (h : Hotspot) (n : Nat) (gs : List (List Hotspot)) :
    (tagSuperspots n gs).countP (fun s => decide (h ∈ s.children)) =
      gs.countP (fun g => decide (h ∈ g)) := by
  induction gs generalizing n with
  | nil => rfl
  | cons g gs ih => simp [tagSuperspots, List.countP_cons, ih]

/-- The hotspot identifiers assigned by tagging are consecutive. -/
theorem tagHotspots_map_id (n : Nat) (gs : List (List Loc)) :
    (tagHotspots n gs).map Hotspot.id = List.range' n gs.length := by
  induction gs generalizing n with
  | nil => rfl
  | cons g gs ih => simp [tagHotspots, List.range'_succ, ih]

/-- The hotspot list built by tagging has no duplicates. -/
theorem tagHotspots_nodup (n : Nat) (gs : List (List Loc)) :
    (tagHotspots n gs).Nodup :=
  List.Nodup.of_map Hotspot.id
    (by rw [tagHotspots_map_id]; exact List.nodup_range' n gs.length)

/-- Every tagged superspot's child set is one of the underlying groups. -/
theorem tagSuperspots_children_mem (n : Nat) (gs : List (List Hotspot))
    (s : Superspot) (h : s ∈ tagSuperspots n gs) : s.children ∈ gs := by
  induction gs generalizing n with
  | nil => simp [tagSuperspots] at h
  | cons g gs ih =>
    simp only [tagSuperspots, List.mem_cons] at h
    rcases h with h | h
    · subst h
      exact List.mem_cons_self _ _
    · exact List.mem_cons_of_mem _ (ih _ h)

/-- Tagging preserves the number of superspot groups. -/
theorem tagSuperspots_length (n : Nat) (gs : List (List Hotspot)) :
    (tagSuperspots n gs).length = gs.length := by
  induction gs generalizing n with
  | nil => rfl
  | cons g gs ih => simp [tagSuperspots, ih]

/-- An element absent from the flattened groups is a member of no group. -/
theorem countP_mem_zero_of_flatten {β : Type} [DecidableEq β] (gs : List (List β))
    (b : β) (h : gs.flatten.count b = 0) :
    gs.countP (fun g => decide (b ∈ g)) = 0 := by
  induction gs with
  | nil => rfl
  | cons g gs ih =>
    simp only [List.flatten_cons, List.count_append] at h
    have h1 : g.count b = 0 := by omega
    have h2 : gs.flatten.count b = 0 := by omega
    have hb : b ∉ g := List.count_eq_zero.mp h1
    simp [List.countP_cons, hb, ih h2]

/-- An element occurring exactly once in the flattened groups is a member of
exactly one group. -/
theorem countP_mem_one_of_flatten {β : Type} [DecidableEq β] (gs : List (List β))
    (b : β) (h : gs.flatten.count b = 1) :
    gs.countP (fun g => decide (b ∈ g)) = 1 := by
  induction gs with
  | nil => simp at h
  | cons g gs ih =>
    simp only [List.flatten_cons, List.count_append] at h
    by_cases hb : b ∈ g
    · have h1 : 0 < g.count b := List.count_pos_iff.mpr hb
      have h2 : gs.flatten.count b = 0 := by omega
      simp [List.countP_cons, hb, countP_mem_zero_of_flatten gs b h2]
    · have h1 : g.count b = 0 := List.count_eq_zero.mpr hb
      simp [List.countP_cons, hb, ih (by omega)]

/-- Claim C5: in every hierarchy returned by the network builder on a
duplicate-free nonempty location collection, every location belongs to exactly
one hotspot, every hotspot belongs to exactly one superspot, and every
superspot owns at least min_children hotspots unless exactly one superspot
exists. -/
theorem network_invariants (p : BuildParams) (locs : List Loc)
    (hnd : locs.Nodup) (hne : locs ≠ []) :
    (∀ l ∈ locs,
      (buildNetwork p locs).hotspots.countP (fun h => decide (l ∈ h.members)) = 1) ∧
    (∀ h ∈ (buildNetwork p locs).hotspots,
      (buildNetwork p locs).superspots.countP (fun s => decide (h ∈ s.children)) = 1) ∧
    ((buildNetwork p locs).superspots.length = 1 ∨
      ∀ s ∈ (buildNetwork p locs).superspots, p.min_children ≤ s.children.length) := by
  have hCperm : List.Perm (cluster locDist p.spacing_threshold locs).flatten locs :=
    cluster_flatten_perm_aux locDist p.spacing_threshold locs.length locs le_rfl
  have hG0perm : List.Perm
      (cluster hotspotDist (p.spacing_threshold * p.superspotTarget)
        (buildHotspots p locs)).flatten (buildHotspots p locs) :=
    cluster_flatten_perm_aux hotspotDist (p.spacing_threshold * p.superspotTarget)
      (buildHotspots p locs).length (buildHotspots p locs) le_rfl
  have hGperm : List.Perm (superspotGroups p (buildHotspots p locs)).flatten
      (cluster hotspotDist (p.spacing_threshold * p.superspotTarget)
        (buildHotspots p locs)).flatten :=
    mergeLoop_flatten_perm_aux p.min_children
      (cluster hotspotDist (p.spacing_threshold * p.superspotTarget)
        (buildHotspots p locs)).length _ le_rfl
  refine ⟨?_, ?_, ?_⟩
  · intro l hl
    have hcount : (cluster locDist p.spacing_threshold locs).flatten.count l = 1 := by
      rw [hCperm.count_eq]
      exact List.count_eq_one_of_mem hnd hl
    show (tagHotspots 0 (cluster locDist p.spacing_threshold locs)).countP
        (fun h => decide (l ∈ h.members)) = 1
    rw [tagHotspots_countP_mem]
    exact countP_mem_one_of_flatten _ l hcount
  · intro h hh
    have hnodup : (buildHotspots p locs).Nodup := tagHotspots_nodup 0 _
    have hcount : (superspotGroups p (buildHotspots p locs)).flatten.count h = 1 := by
      rw [hGperm.count_eq, hG0perm.count_eq]
      exact List.count_eq_one_of_mem hnodup hh
    show (tagSuperspots 0 (superspotGroups p (buildHotspots p locs))).countP
        (fun s => decide (h ∈ s.children)) = 1
    rw [tagSuperspots_countP_mem]
    exact countP_mem_one_of_flatten _ h hcount
  · have hCne : cluster locDist p.spacing_threshold locs ≠ [] :=
      cluster_ne_nil _ _ locs hne
    have hhsne : buildHotspots p locs ≠ [] := by
      unfold buildHotspots
      cases hC : cluster locDist p.spacing_threshold locs with
      | nil => exact absurd hC hCne
      | cons a l => simp [tagHotspots]
    have hG0ne : cluster hotspotDist (p.spacing_threshold * p.superspotTarget)
        (buildHotspots p locs) ≠ [] := cluster_ne_nil _ _ _ hhsne
    have hsz := mergeLoop_sized p.min_children
      (cluster hotspotDist (p.spacing_threshold * p.superspotTarget)
        (buildHotspots p locs)).length
      (cluster hotspotDist (p.spacing_threshold * p.superspotTarget)
        (buildHotspots p locs)) le_rfl hG0ne
    rcases hsz with h1 | h2
    · left
      show (tagSuperspots 0 (superspotGroups p (buildHotspots p locs))).length = 1
      rw [tagSuperspots_length]
      exact h1
    · right
      intro s hssup
      exact h2 _ (tagSuperspots_children_mem 0 _ s hssup)

/-- Witness for claim C5 at a concrete two-location input. -/
theorem network_invariants_witness :
    (∀ l ∈ [(⟨0, 0, 0, Role.producer⟩ : Loc), ⟨1, 3, 0, Role.consumer⟩],
      (buildNetwork ⟨2, 1, 4⟩
          [⟨0, 0, 0, Role.producer⟩, ⟨1, 3, 0, Role.consumer⟩]).hotspots.countP
        (fun h => decide (l ∈ h.members)) = 1) ∧
    (∀ h ∈ (buildNetwork ⟨2, 1, 4⟩
        [⟨0, 0, 0, Role.producer⟩, ⟨1, 3, 0, Role.consumer⟩]).hotspots,
      (buildNetwork ⟨2, 1, 4⟩
          [⟨0, 0, 0, Role.producer⟩, ⟨1, 3, 0, Role.consumer⟩]).superspots.countP
        (fun s => decide (h ∈ s.children)) = 1) ∧
    ((buildNetwork ⟨2, 1, 4⟩
        [⟨0, 0, 0, Role.producer⟩, ⟨1, 3, 0, Role.consumer⟩]).superspots.length = 1 ∨
      ∀ s ∈ (buildNetwork ⟨2, 1, 4⟩
          [⟨0, 0, 0, Role.producer⟩, ⟨1, 3, 0, Role.consumer⟩]).superspots,
        (⟨2, 1, 4⟩ : BuildParams).min_children ≤ s.children.length) :=
  network_invariants ⟨2, 1, 4⟩ [⟨0, 0, 0, Role.producer⟩, ⟨1, 3, 0, Role.consumer⟩]
    (by decide) (by decide)

/-- Claim C6: an invalid parameter combination — a negative superspot target
proportion or a zero min_children — is detected before network construction
begins and surfaced as a fatal ConfigurationError; no network is constructed
with those parameters. -/
theorem config_validation (p : BuildParams) (locs : List Loc)
    (hbad : p.superspotTarget < 0 ∨ p.min_children = 0) :
    buildNetworkChecked p locs =
      Except.error (BuildFailure.configurationError "invalid network parameters") ∧
    ∀ net : DeliveryNetwork, buildNetworkChecked p locs ≠ Except.ok net := by
  have hv : validBuildParams p = false := by
    rcases hbad with h | h
    · simp [validBuildParams, not_le.mpr h]
    · simp [validBuildParams, h]
  refine ⟨by simp [buildNetworkChecked, hv], fun net => by simp [buildNetworkChecked, hv]⟩

/-- Witness for claim C6 at a concrete invalid parameter set. -/
theorem config_validation_witness :
    buildNetworkChecked ⟨-1, 0, 1⟩ [] =
      Except.error (BuildFailure.configurationError "invalid network parameters") ∧
    ∀ net : DeliveryNetwork, buildNetworkChecked ⟨-1, 0, 1⟩ [] ≠ Except.ok net :=
  config_validation ⟨-1, 0, 1⟩ [] (Or.inl (by norm_num))

/-- Claim C7 counterexample: at a concrete configuration, the point-to-point
baseline in run_baselines is not executed by the DeliverySimulator class, and
its constructor does not accept the same inputs as the simulator's. -/
theorem baselines_counterexample :
    (QuickStart.p2pCtor ⟨100, 3600, true, 2⟩).cls ≠
        QuickStart.SimClass.deliverySimulator ∧
      (QuickStart.p2pCtor ⟨100, 3600, true, 2⟩).kwargs.map Prod.fst ≠
        (QuickStart.quikdelCtor ⟨100, 3600, true, 2⟩).kwargs.map Prod.fst :=
  ⟨by decide, by decide⟩

/-- Claim C7 as amended: the three routing variants are executed by three
distinct classes — DeliverySimulator for the learned run, P2PBaseline for
direct point-to-point and AblationStudy for no-ride-share — each with its own
constructor arguments; only the ablation variant receives a policy-like flag
(enable_ride_sharing=False) in its constructor. -/
theorem baselines_distinct_classes (c : QuickStart.SimSection) :
    QuickStart.run_baselines_calls c =
      [("p2p", QuickStart.p2pCtor c), ("ablation", QuickStart.ablationCtor c)] ∧
    (QuickStart.p2pCtor c).cls = QuickStart.SimClass.p2pBaseline ∧
    (QuickStart.ablationCtor c).cls = QuickStart.SimClass.ablationStudy ∧
    (QuickStart.quikdelCtor c).cls = QuickStart.SimClass.deliverySimulator ∧
    (QuickStart.ablationCtor c).kwargs.lookup "enable_ride_sharing" =
      some (PyVal.bool false) ∧
    QuickStart.SimClass.p2pBaseline ≠ QuickStart.SimClass.deliverySimulator ∧
    QuickStart.SimClass.ablationStudy ≠ QuickStart.SimClass.deliverySimulator :=
  ⟨rfl, rfl, rfl, rfl, rfl, by decide, by decide⟩

/-- Claim C8: when baseline_results has a p2p entry, generate_summary divides
by its total_distance with no zero guard — a zero value raises
ZeroDivisionError and no summary is written; without a p2p entry the summary
is written with no vs_p2p comparison. -/
theorem summary_p2p_division (q : QuickStart.Metrics)
    (bs : List (String × QuickStart.Metrics)) :
    (∀ m, bs.lookup "p2p" = some m → m.total_distance = 0 →
      QuickStart.generate_summary q bs =
        Except.error QuickStart.ZeroDiv.zeroDivisionError) ∧
    (bs.lookup "p2p" = none →
      QuickStart.generate_summary q bs = Except.ok ⟨q, bs, []⟩ ∧
      ∀ s, QuickStart.generate_summary q bs = Except.ok s →
        s.comparisons.lookup "vs_p2p" = none) := by
  constructor
  · intro m hm h0
    simp [QuickStart.generate_summary, hm, h0]
  · intro hnone
    refine ⟨by simp [QuickStart.generate_summary, hnone], ?_⟩
    intro s hs
    simp only [QuickStart.generate_summary, hnone] at hs
    cases hs
    rfl

/-- Witness for claim C8: a zero p2p distance yields the division error, and a
missing p2p key yields a summary with no vs_p2p entry. -/
theorem summary_p2p_division_witness :
    QuickStart.generate_summary ⟨50, 1, 100, 60⟩ [("p2p", ⟨50, 1, 0, 60⟩)] =
      Except.error QuickStart.ZeroDiv.zeroDivisionError ∧
    (QuickStart.generate_summary ⟨50, 1, 100, 60⟩ [("ablation", ⟨50, 1, 7, 60⟩)] =
      Except.ok ⟨⟨50, 1, 100, 60⟩, [("ablation", ⟨50, 1, 7, 60⟩)], []⟩ ∧
    ∀ s, QuickStart.generate_summary ⟨50, 1, 100, 60⟩ [("ablation", ⟨50, 1, 7, 60⟩)] =
        Except.ok s → s.comparisons.lookup "vs_p2p" = none) :=
  ⟨(summary_p2p_division ⟨50, 1, 100, 60⟩ [("p2p", ⟨50, 1, 0, 60⟩)]).1
      ⟨50, 1, 0, 60⟩ rfl rfl,
   (summary_p2p_division ⟨50, 1, 100, 60⟩ [("ablation", ⟨50, 1, 7, 60⟩)]).2 rfl⟩

/-- Any member of the simulation-onward trace is one of the last three steps. -/
theorem mem_mainFromSim (inp : QuickStart.MainInputs) (x : QuickStart.StepTag)
    (hx : x ∈ QuickStart.mainFromSim inp) :
    x = QuickStart.StepTag.simStep ∨ x = QuickStart.StepTag.baselinesStep ∨
      x = QuickStart.StepTag.summaryStep := by
  unfold QuickStart.mainFromSim at hx
  split at hx <;> simp_all

/-- Any member of the training-onward trace is the training step or comes from
the simulation-onward trace. -/
theorem mem_mainFromTrain (inp : QuickStart.MainInputs) (x : QuickStart.StepTag)
    (hx : x ∈ QuickStart.mainFromTrain inp) :
    x = QuickStart.StepTag.trainStep ∨ x ∈ QuickStart.mainFromSim inp := by
  unfold QuickStart.mainFromTrain at hx
  split at hx
  · exact Or.inr hx
  · split at hx
    · simp at hx
      exact Or.inl hx
    · rcases List.mem_cons.mp hx with h | h
      · exact Or.inl h
      · exact Or.inr h

/-- Any member of the build-onward trace is the build step or comes from the
training-onward trace. -/
theorem mem_mainFromBuild (inp : QuickStart.MainInputs) (x : QuickStart.StepTag)
    (hx : x ∈ QuickStart.mainFromBuild inp) :
    x = QuickStart.StepTag.buildStep ∨ x ∈ QuickStart.mainFromTrain inp := by
  unfold QuickStart.mainFromBuild at hx
  split at hx
  · simp at hx
    exact Or.inl hx
  · rcases List.mem_cons.mp hx with h | h
    · exact Or.inl h
    · exact Or.inr h

/-- Any member of the full trace is the extraction step or comes from the
build-onward trace. -/
theorem mem_mainSteps (inp : QuickStart.MainInputs) (x : QuickStart.StepTag)
    (hx : x ∈ QuickStart.mainSteps inp) :
    x = QuickStart.StepTag.extractStep ∨ x ∈ QuickStart.mainFromBuild inp := by
  unfold QuickStart.mainSteps at hx
  split at hx
  · exact Or.inr hx
  · split at hx
    · simp at hx
      exact Or.inl hx
    · rcases List.mem_cons.mp hx with h | h
      · exact Or.inl h
      · exact Or.inr h

/-- A failed network-construction body truncates the build-onward trace. -/
theorem mainFromBuild_eq_of_error (inp : QuickStart.MainInputs) (e : QuickStart.PyExc)
    (hb : inp.buildBody = Except.error e) :
    QuickStart.mainFromBuild inp = [QuickStart.StepTag.buildStep] := by
  have hnone : QuickStart.build_network inp.buildBody = none := by
    rw [hb]; cases e <;> rfl
  simp [QuickStart.mainFromBuild, hnone]

/-- A failed training body truncates the training-onward trace. -/
theorem mainFromTrain_eq_of_error (inp : QuickStart.MainInputs) (e : QuickStart.PyExc)
    (hs : inp.skip_training = false) (htr : inp.trainBody = Except.error e) :
    QuickStart.mainFromTrain inp = [QuickStart.StepTag.trainStep] := by
  have hnone : QuickStart.train_agents inp.trainBody = none := by
    rw [htr]; cases e <;> rfl
  simp [QuickStart.mainFromTrain, hs, hnone]

/-- A failed simulation body truncates the simulation-onward trace. -/
theorem mainFromSim_eq_of_error (inp : QuickStart.MainInputs) (e : QuickStart.PyExc)
    (hsim : inp.simBody = Except.error e) :
    QuickStart.mainFromSim inp = [QuickStart.StepTag.simStep] := by
  have hnone : QuickStart.run_simulation inp.simBody = none := by
    rw [hsim]; cases e <;> rfl
  simp [QuickStart.mainFromSim, hnone]

/-- Claim C9: every exception of class Exception (including ImportError for a
missing core module) raised inside a pipeline step body is caught by the step
function, which returns None instead of propagating it, and main then stops
the pipeline without executing any later step. -/
theorem pipeline_stops_on_exception (inp : QuickStart.MainInputs)
    (e : QuickStart.PyExc) :
    (QuickStart.extract_city_data (Except.error e) = none ∧
     QuickStart.build_network (Except.error e) = none ∧
     QuickStart.train_agents (Except.error e) = none ∧
     QuickStart.run_simulation (Except.error e) = none) ∧
    (inp.skip_data = false → inp.extractBody = Except.error e →
      QuickStart.mainSteps inp = [QuickStart.StepTag.extractStep]) ∧
    (inp.buildBody = Except.error e →
      QuickStart.StepTag.trainStep ∉ QuickStart.mainSteps inp ∧
      QuickStart.StepTag.simStep ∉ QuickStart.mainSteps inp ∧
      QuickStart.StepTag.baselinesStep ∉ QuickStart.mainSteps inp ∧
      QuickStart.StepTag.summaryStep ∉ QuickStart.mainSteps inp) ∧
    (inp.skip_training = false → inp.trainBody = Except.error e →
      QuickStart.StepTag.simStep ∉ QuickStart.mainSteps inp ∧
      QuickStart.StepTag.baselinesStep ∉ QuickStart.mainSteps inp ∧
      QuickStart.StepTag.summaryStep ∉ QuickStart.mainSteps inp) ∧
    (inp.simBody = Except.error e →
      QuickStart.StepTag.baselinesStep ∉ QuickStart.mainSteps inp ∧
      QuickStart.StepTag.summaryStep ∉ QuickStart.mainSteps inp) := by
  refine ⟨⟨by cases e <;> rfl, by cases e <;> rfl, by cases e <;> rfl,
    by cases e <;> rfl⟩, ?_, ?_, ?_, ?_⟩
  · intro hsd hex
    have hnone : QuickStart.extract_city_data inp.extractBody = none := by
      rw [hex]; cases e <;> rfl
    simp [QuickStart.mainSteps, hsd, hnone]
  · intro hb
    have hfb := mainFromBuild_eq_of_error inp e hb
    have key : ∀ x ∈ QuickStart.mainSteps inp,
        x = QuickStart.StepTag.extractStep ∨ x = QuickStart.StepTag.buildStep := by
      intro x hx
      rcases mem_mainSteps inp x hx with h | h
      · exact Or.inl h
      · rw [hfb] at h
        simp at h
        exact Or.inr h
    refine ⟨fun hmem => ?_, fun hmem => ?_, fun hmem => ?_, fun hmem => ?_⟩ <;>
      rcases key _ hmem with h | h <;> exact absurd h (by decide)
  · intro hst htr
    have hft := mainFromTrain_eq_of_error inp e hst htr
    have key : ∀ x ∈ QuickStart.mainSteps inp,
        x = QuickStart.StepTag.extractStep ∨ x = QuickStart.StepTag.buildStep ∨
          x = QuickStart.StepTag.trainStep := by
      intro x hx
      rcases mem_mainSteps inp x hx with h | h
      · exact Or.inl h
      · rcases mem_mainFromBuild inp x h with h2 | h2
        · exact Or.inr (Or.inl h2)
        · rw [hft] at h2
          simp at h2
          exact Or.inr (Or.inr h2)
    refine ⟨fun hmem => ?_, fun hmem => ?_, fun hmem => ?_⟩ <;>
      rcases key _ hmem with h | h | h <;> exact absurd h (by decide)
  · intro hsim
    have hfs := mainFromSim_eq_of_error inp e hsim
    have key : ∀ x ∈ QuickStart.mainSteps inp,
        x = QuickStart.StepTag.extractStep ∨ x = QuickStart.StepTag.buildStep ∨
          x = QuickStart.StepTag.trainStep ∨ x = QuickStart.StepTag.simStep := by
      intro x hx
      rcases mem_mainSteps inp x hx with h | h
      · exact Or.inl h
      · rcases mem_mainFromBuild inp x h with h2 | h2
        · exact Or.inr (Or.inl h2)
        · rcases mem_mainFromTrain inp x h2 with h3 | h3
          · exact Or.inr (Or.inr (Or.inl h3))
          · rw [hfs] at h3
            simp at h3
            exact Or.inr (Or.inr (Or.inr h3))
    refine ⟨fun hmem => ?_, fun hmem => ?_⟩ <;>
      rcases key _ hmem with h | h | h | h <;> exact absurd h (by decide)

/-- Witness for claim C9: concrete failing pipelines stop at the failing step. -/
theorem pipeline_stops_on_exception_witness :
    QuickStart.extract_city_data (Except.error QuickStart.PyExc.importError) = none ∧
    QuickStart.mainSteps ⟨false, false, Except.error QuickStart.PyExc.importError,
        Except.ok ⟨[], []⟩, Except.ok ⟨0⟩, Except.ok []⟩ =
      [QuickStart.StepTag.extractStep] ∧
    QuickStart.StepTag.trainStep ∉ QuickStart.mainSteps ⟨false, false,
      Except.ok ⟨1, 1, 1⟩, Except.error QuickStart.PyExc.otherExc, Except.ok ⟨0⟩,
      Except.ok []⟩ ∧
    QuickStart.StepTag.simStep ∉ QuickStart.mainSteps ⟨false, false,
      Except.ok ⟨1, 1, 1⟩, Except.ok ⟨[], []⟩, Except.error QuickStart.PyExc.otherExc,
      Except.ok []⟩ ∧
    QuickStart.StepTag.baselinesStep ∉ QuickStart.mainSteps ⟨false, false,
      Except.ok ⟨1, 1, 1⟩, Except.ok ⟨[], []⟩, Except.ok ⟨0⟩,
      Except.error QuickStart.PyExc.otherExc⟩ :=
  ⟨(pipeline_stops_on_exception ⟨false, false,
      Except.error QuickStart.PyExc.importError, Except.ok ⟨[], []⟩, Except.ok ⟨0⟩,
      Except.ok []⟩ QuickStart.PyExc.importError).1.1,
   (pipeline_stops_on_exception ⟨false, false,
      Except.error QuickStart.PyExc.importError, Except.ok ⟨[], []⟩, Except.ok ⟨0⟩,
      Except.ok []⟩ QuickStart.PyExc.importError).2.1 rfl rfl,
   ((pipeline_stops_on_exception ⟨false, false, Except.ok ⟨1, 1, 1⟩,
      Except.error QuickStart.PyExc.otherExc, Except.ok ⟨0⟩, Except.ok []⟩
      QuickStart.PyExc.otherExc).2.2.1 rfl).1,
   ((pipeline_stops_on_exception ⟨false, false, Except.ok ⟨1, 1, 1⟩,
      Except.ok ⟨[], []⟩, Except.error QuickStart.PyExc.otherExc, Except.ok []⟩
      QuickStart.PyExc.otherExc).2.2.2.1 rfl rfl).1,
   ((pipeline_stops_on_exception ⟨false, false, Except.ok ⟨1, 1, 1⟩,
      Except.ok ⟨[], []⟩, Except.ok ⟨0⟩, Except.error QuickStart.PyExc.otherExc⟩
      QuickStart.PyExc.otherExc).2.2.2.2 rfl).1⟩

/-- Assigning a key into a Python dict makes that key read back the new value. -/
theorem lookup_setKey_self (k : String) (v : PyVal) (d : List (String × PyVal)) :
    (QuickStart.setKey k v d).lookup k = some v := by
  induction d with
  | nil => simp [QuickStart.setKey, List.lookup_cons]
  | cons p rest ih =>
    obtain ⟨k', v'⟩ := p
    by_cases h : k' = k
    · subst h
      simp [QuickStart.setKey, List.lookup_cons]
    · have hb : (k == k') = false := beq_eq_false_iff_ne.mpr fun hh => h hh.symm
      simp [QuickStart.setKey, h, List.lookup_cons, hb, ih]

/-- Assigning a key into a Python dict leaves every other key unchanged. -/
theorem lookup_setKey_other (k : String) (v : PyVal) (q : String) (hq : q ≠ k)
    (d : List (String × PyVal)) :
    (QuickStart.setKey k v d).lookup q = d.lookup q := by
  induction d with
  | nil =>
    have hb : (q == k) = false := beq_eq_false_iff_ne.mpr hq
    simp [QuickStart.setKey, List.lookup_cons, hb]
  | cons p rest ih =>
    obtain ⟨k', v'⟩ := p
    by_cases h : k' = k
    · subst h
      have hb : (q == k') = false := beq_eq_false_iff_ne.mpr hq
      simp [QuickStart.setKey, List.lookup_cons, hb]
    · simp [QuickStart.setKey, h, List.lookup_cons, ih]

/-- Updating a key inside a section rewrites that section's dict in place. -/
theorem lookup_setSectionKey_self (sec key : String) (v : PyVal)
    (cfg : QuickStart.ConfigDict) (d : List (String × PyVal))
    (h : cfg.lookup sec = some d) :
    (QuickStart.setSectionKey sec key v cfg).lookup sec =
      some (QuickStart.setKey key v d) := by
  induction cfg with
  | nil => simp at h
  | cons p rest ih =>
    obtain ⟨s', d'⟩ := p
    by_cases hs : s' = sec
    · subst hs
      simp [List.lookup_cons] at h
      subst h
      simp [QuickStart.setSectionKey, List.lookup_cons]
    · have hs2 : (sec == s') = false :=
        beq_eq_false_iff_ne.mpr fun hh => hs hh.symm
      simp [List.lookup_cons, hs2] at h
      have hrest := ih h
      simp [QuickStart.setSectionKey, List.lookup_cons, hs, hs2] at hrest ⊢
      exact hrest

/-- Updating a key inside one section leaves every other section unchanged. -/
theorem lookup_setSectionKey_other (sec key : String) (v : PyVal) (q : String)
    (hq : q ≠ sec) (cfg : QuickStart.ConfigDict) :
    (QuickStart.setSectionKey sec key v cfg).lookup q = cfg.lookup q := by
  induction cfg with
  | nil => simp [QuickStart.setSectionKey]
  | cons p rest ih =>
    obtain ⟨s', d'⟩ := p
    by_cases hs : s' = sec
    · subst hs
      have hq2 : (q == s') = false := beq_eq_false_iff_ne.mpr hq
      have hrest := ih
      simp [QuickStart.setSectionKey, List.lookup_cons, hq2] at hrest ⊢
      exact hrest
    · by_cases hqs : q = s'
      · subst hqs
        simp [QuickStart.setSectionKey, List.lookup_cons, hs]
      · have hq2 : (q == s') = false := beq_eq_false_iff_ne.mpr hqs
        have hrest := ih
        simp [QuickStart.setSectionKey, List.lookup_cons, hs, hq2] at hrest ⊢
        exact hrest

/-- Claim C10: the network superspot key actually used is the --ratio CLI
argument (default 10), assigned into the loaded configuration after the config
file is read, so any value from the config file is always overridden while
every other configuration entry keeps its loaded value. -/
theorem config_key_override (cfg : QuickStart.ConfigDict) (cli : Option Int)
    (ns : List (String × PyVal)) (hn : cfg.lookup "network" = some ns) :
    QuickStart.getCfg (QuickStart.mainConfig cfg cli) "network" "superspot_ratio" =
      some (PyVal.int (QuickStart.parsedRArg cli)) ∧
    QuickStart.parsedRArg none = 10 ∧
    (∀ sec key, sec ≠ "network" →
      QuickStart.getCfg (QuickStart.mainConfig cfg cli) sec key =
        QuickStart.getCfg cfg sec key) ∧
    (∀ key, key ≠ "superspot_ratio" →
      QuickStart.getCfg (QuickStart.mainConfig cfg cli) "network" key =
        QuickStart.getCfg cfg "network" key) := by
  have hsec := lookup_setSectionKey_self "network" "superspot_ratio"
    (PyVal.int (QuickStart.parsedRArg cli)) cfg ns hn
  refine ⟨?_, rfl, ?_, ?_⟩
  · unfold QuickStart.getCfg QuickStart.mainConfig
    rw [hsec]
    exact lookup_setKey_self _ _ ns
  · intro sec key hs
    unfold QuickStart.getCfg QuickStart.mainConfig
    rw [lookup_setSectionKey_other "network" "superspot_ratio" _ sec hs cfg]
  · intro key hk
    unfold QuickStart.getCfg QuickStart.mainConfig
    rw [hsec, hn]
    exact lookup_setKey_other _ _ _ hk ns

/-- Witness for claim C10 at a concrete two-section configuration. -/
theorem config_key_override_witness :
    QuickStart.getCfg (QuickStart.mainConfig
        [("network", [("superspot_ratio", PyVal.int 5), ("min_children", PyVal.int 2)]),
         ("training", [("alpha", PyVal.int 1)])] none) "network" "superspot_ratio" =
      some (PyVal.int (QuickStart.parsedRArg none)) ∧
    QuickStart.parsedRArg none = 10 ∧
    QuickStart.getCfg (QuickStart.mainConfig
        [("network", [("superspot_ratio", PyVal.int 5), ("min_children", PyVal.int 2)]),
         ("training", [("alpha", PyVal.int 1)])] none) "training" "alpha" =
      QuickStart.getCfg
        [("network", [("superspot_ratio", PyVal.int 5), ("min_children", PyVal.int 2)]),
         ("training", [("alpha", PyVal.int 1)])] "training" "alpha" ∧
    QuickStart.getCfg (QuickStart.mainConfig
        [("network", [("superspot_ratio", PyVal.int 5), ("min_children", PyVal.int 2)]),
         ("training", [("alpha", PyVal.int 1)])] none) "network" "min_children" =
      QuickStart.getCfg
        [("network", [("superspot_ratio", PyVal.int 5), ("min_children", PyVal.int 2)]),
         ("training", [("alpha", PyVal.int 1)])] "network" "min_children" :=
  ⟨(config_key_override
      [("network", [("superspot_ratio", PyVal.int 5), ("min_children", PyVal.int 2)]),
       ("training", [("alpha", PyVal.int 1)])] none
      [("superspot_ratio", PyVal.int 5), ("min_children", PyVal.int 2)] rfl).1,
   (config_key_override
      [("network", [("superspot_ratio", PyVal.int 5), ("min_children", PyVal.int 2)]),
       ("training", [("alpha", PyVal.int 1)])] none
      [("superspot_ratio", PyVal.int 5), ("min_children", PyVal.int 2)] rfl).2.1,
   (config_key_override
      [("network", [("superspot_ratio", PyVal.int 5), ("min_children", PyVal.int 2)]),
       ("training", [("alpha", PyVal.int 1)])] none
      [("superspot_ratio", PyVal.int 5), ("min_children", PyVal.int 2)] rfl).2.2.1
      "training" "alpha" (by decide),
   (config_key_override
      [("network", [("superspot_ratio", PyVal.int 5), ("min_children", PyVal.int 2)]),
       ("training", [("alpha", PyVal.int 1)])] none
      [("superspot_ratio", PyVal.int 5), ("min_children", PyVal.int 2)] rfl).2.2.2
      "min_children" (by decide)⟩

end QuikDel
